import Mathlib

/-!
Shallow embedding of the mlab-ns server-selection core
(server/mlabns/util/resolver.py).

External collaborators are modelled at their interface boundary: the
memcache/datastore pair becomes an explicit `Env`, the great-circle
distance function a parameter, `random.choice` an injected index, and the
`LookupQuery` record (defined in the request-handling layer) a structure
following its attribute accesses in resolver.py.
-/

/-- Address family; the source uses the string constants
`message.ADDRESS_FAMILY_IPv4` / `message.ADDRESS_FAMILY_IPv6`. -/
inductive AddressFamily where
  | ipv4
  | ipv6
deriving DecidableEq, Repr

/-- The IPv4/IPv6 swap applied by the address-family fallback. -/
def AddressFamily.other : AddressFamily → AddressFamily
  | .ipv4 => .ipv6
  | .ipv6 => .ipv4

/-- Per-family online status; the source compares against
`message.STATUS_ONLINE`. -/
inductive Status where
  | online
  | offline
  | unknown
deriving DecidableEq, Repr, Inhabited

/-- SliverTool entity (read-only to the resolver): the fields read by
resolver.py. -/
structure SliverTool where
  tool_id : String
  site_id : String
  country : String
  latitude : ℚ
  longitude : ℚ
  status_ipv4 : Status
  status_ipv6 : Status
deriving DecidableEq, Repr, Inhabited

/-- Site entity: the fields read by `MetroResolver`. -/
structure Site where
  site_id : String
  metro : String
deriving DecidableEq, Repr

/-- Modelled from the spec: `LookupQuery` is defined in the request-handling
layer, outside this file. Fields follow spec section 3 and the attribute
accesses in resolver.py: `user_defined_af` holds the client-forced family if
any, and `distance` is the mutable `resolved_distance_km` out-field written
by the Geo resolver. -/
structure LookupQuery where
  tool_id : String
  policy : String
  address_family : Option AddressFamily
  user_defined_af : Option AddressFamily
  latitude : Option ℚ
  longitude : Option ℚ
  metro : Option String
  user_defined_country : Option String
  distance : Option ℤ
deriving DecidableEq, Repr

/-- The external two-tier lookup state seen by one query evaluation:
`cache` is `memcache.get(tool_id, namespace=TOOLS)` (the complete unfiltered
candidate set for a tool, or a miss), `store` the datastore contents,
`sites` the Site table, and `maxFetched` the configured
`constants.MAX_FETCHED_RESULTS` cap. -/
structure Env where
  cache : String → Option (List SliverTool)
  store : List SliverTool
  sites : List Site
  maxFetched : Nat

/-- The per-family online test: used to filter memcache hits and as the
datastore predicate `status_<family> = ONLINE`. -/
def statusOnline (address_family : AddressFamily) (st : SliverTool) : Bool :=
  match address_family with
  | .ipv4 => st.status_ipv4 == .online
  | .ipv6 => st.status_ipv6 == .online

/-- `ResolverBase._get_candidates`: memcache first, filtering the hit by
per-family online status; on a miss, the datastore query
`tool_id = :tool_id AND status_<family> = ONLINE`, fetched up to the cap. -/
def ResolverBase._get_candidates (env : Env) (query : LookupQuery)
    (address_family : AddressFamily) : List SliverTool :=
  match env.cache query.tool_id with
  | some sliver_tools =>
      sliver_tools.filter (fun st => statusOnline address_family st)
  | none =>
      (env.store.filter (fun st =>
        st.tool_id == query.tool_id && statusOnline address_family st)).take
        env.maxFetched

/-- `ResolverBase._get_candidates_from_sites`: as `_get_candidates`, but
additionally restricted to a site-id allowlist. -/
def ResolverBase._get_candidates_from_sites (env : Env) (query : LookupQuery)
    (address_family : AddressFamily) (site_id_list : List String) :
    List SliverTool :=
  match env.cache query.tool_id with
  | some sliver_tools =>
      sliver_tools.filter (fun st =>
        site_id_list.contains st.site_id && statusOnline address_family st)
  | none =>
      (env.store.filter (fun st =>
        st.tool_id == query.tool_id && statusOnline address_family st &&
          site_id_list.contains st.site_id)).take env.maxFetched

/-- `ResolverBase.get_candidates`, with the dynamically dispatched
`self._get_candidates` passed explicitly (`MetroResolver` overrides it):
fetch for the requested family; if the result is empty and
`address_family != user_defined_af`, retry once with the swapped family. -/
def getCandidatesWith (fetch : AddressFamily → List SliverTool)
    (query : LookupQuery) : List SliverTool :=
  let candidates : List SliverTool :=
    match query.address_family with
    | some af => fetch af
    | none => []
  if candidates.length = 0 ∧ query.address_family ≠ query.user_defined_af then
    match query.address_family with
    | some .ipv4 => fetch .ipv6
    | some .ipv6 => fetch .ipv4
    | none => candidates
  else
    candidates

def ResolverBase.get_candidates (env : Env) (query : LookupQuery) :
    List SliverTool :=
  getCandidatesWith (ResolverBase._get_candidates env query) query

/-- `random.choice`, with the randomness source injected as an index: the
element at position `rand mod length` (`none` on the empty list, where the
source would raise). -/
def randomChoice {α : Type*} (rand : Nat) (l : List α) : Option α :=
  l.get? (rand % l.length)

/-- `ResolverBase.answer_query` on an already-acquired candidate list: an
empty candidate set answers `none` ("not found"); otherwise one random
candidate as a singleton. The query is returned unchanged. -/
def baseAnswerQueryWith (candidates : List SliverTool) (rand : Nat)
    (query : LookupQuery) : Option (List SliverTool) × LookupQuery :=
  if candidates.length = 0 then (none, query)
  else ((randomChoice rand candidates).map (fun c => [c]), query)

def ResolverBase.answer_query (env : Env) (rand : Nat) (query : LookupQuery) :
    Option (List SliverTool) × LookupQuery :=
  baseAnswerQueryWith (ResolverBase.get_candidates env query) rand query

/-- `RandomResolver` inherits everything from `ResolverBase`. -/
def RandomResolver.answer_query (env : Env) (rand : Nat)
    (query : LookupQuery) : Option (List SliverTool) × LookupQuery :=
  ResolverBase.answer_query env rand query

/-- `AllResolver.answer_query`: the full candidate list, or `none` when it is
empty. -/
def AllResolver.answer_query (env : Env) (query : LookupQuery) :
    Option (List SliverTool) × LookupQuery :=
  let candidates := ResolverBase.get_candidates env query
  if candidates.length = 0 then (none, query)
  else (some candidates, query)

/-- Accumulator of the `GeoResolver` candidate scan: the running minimum
(`none` is the initial `float(+inf)`), the minimum-distance tie list, and
the per-site distance memo. -/
structure GeoAcc where
  min_distance : Option ℚ
  closest_sliver_tools : List SliverTool
  distances : List (String × ℚ)
deriving Repr

/-- One iteration of the `GeoResolver` loop body over a candidate. -/
def geoStep (dist : ℚ → ℚ → ℚ → ℚ → ℚ) (lat lon : ℚ)
    (acc : GeoAcc) (sliver_tool : SliverTool) : GeoAcc :=
  let lookedUp := acc.distances.lookup sliver_tool.site_id
  let current_distance :=
    match lookedUp with
    | some d => d
    | none => dist lat lon sliver_tool.latitude sliver_tool.longitude
  let distances :=
    match lookedUp with
    | some _ => acc.distances
    | none => acc.distances ++ [(sliver_tool.site_id, current_distance)]
  match acc.min_distance with
  | none =>
      { min_distance := some current_distance
        closest_sliver_tools := [sliver_tool]
        distances := distances }
  | some m =>
      if current_distance < m then
        { min_distance := some current_distance
          closest_sliver_tools := [sliver_tool]
          distances := distances }
      else if current_distance = m then
        { min_distance := some m
          closest_sliver_tools := acc.closest_sliver_tools ++ [sliver_tool]
          distances := distances }
      else
        { acc with distances := distances }

/-- The full `GeoResolver` candidate scan. -/
def geoScan (dist : ℚ → ℚ → ℚ → ℚ → ℚ) (lat lon : ℚ)
    (candidates : List SliverTool) : GeoAcc :=
  candidates.foldl (geoStep dist lat lon) ⟨none, [], []⟩

/-- `GeoResolver.answer_query`: empty candidates answer `none`; missing
client coordinates degrade to a random pick; otherwise scan for the
minimum-distance tie set, write `ceil(min_distance)` onto the query's
distance field, and pick randomly among the tie set. -/
def GeoResolver.answer_query (env : Env) (dist : ℚ → ℚ → ℚ → ℚ → ℚ)
    (rand : Nat) (query : LookupQuery) :
    Option (List SliverTool) × LookupQuery :=
  let candidates := ResolverBase.get_candidates env query
  if candidates.length = 0 then (none, query)
  else
    match query.latitude, query.longitude with
    | some lat, some lon =>
        let acc := geoScan dist lat lon candidates
        let query := { query with distance := acc.min_distance.map (fun m => ⌈m⌉) }
        ((randomChoice rand acc.closest_sliver_tools).map (fun c => [c]), query)
    | _, _ => ((randomChoice rand candidates).map (fun c => [c]), query)

/-- `SliverToolDistance` (util/sliver_tool_distance.py, outside src):
a sliver tool paired with its computed distance, as constructed in
resolver.py. -/
structure SliverToolDistance where
  sliver_tool : SliverTool
  distance : ℚ
deriving DecidableEq, Repr

/-- Building `sliver_tool_bins`: append the candidate to its site's bin,
creating the bin on first occurrence of the `site_id`. -/
def addToBins (bins : List (String × List SliverTool)) (st : SliverTool) :
    List (String × List SliverTool) :=
  if bins.any (fun p => p.1 == st.site_id) then
    bins.map (fun p => if p.1 == st.site_id then (p.1, p.2 ++ [st]) else p)
  else
    bins ++ [(st.site_id, [st])]

/-- The candidates combined into bins by site, bins in first-occurrence
order. -/
def binsOf (candidates : List SliverTool) : List (String × List SliverTool) :=
  candidates.foldl addToBins []

/-- One iteration of the `GeoResolverWithOptions` per-site loop: choose a
random representative from the bin, compute its distance through the memo,
and append the pair. The `Nat` component is the bin's position, indexing the
injected randomness stream. -/
def geoOptStep (dist : ℚ → ℚ → ℚ → ℚ → ℚ) (lat lon : ℚ) (rands : Nat → Nat)
    (acc : List (String × ℚ) × List SliverToolDistance)
    (item : Nat × String × List SliverTool) :
    List (String × ℚ) × List SliverToolDistance :=
  let sliver_tool := (randomChoice (rands item.1) item.2.2).getD default
  match acc.1.lookup sliver_tool.site_id with
  | some d => (acc.1, acc.2 ++ [⟨sliver_tool, d⟩])
  | none =>
      let d := dist lat lon sliver_tool.latitude sliver_tool.longitude
      (acc.1 ++ [(sliver_tool.site_id, d)], acc.2 ++ [⟨sliver_tool, d⟩])

/-- `GeoResolverWithOptions.answer_query` (N hardcoded to 4): bin by site,
pick one random representative per bin, sort the representatives ascending
by distance (Python `sorted` is a stable ascending sort, embedded as the
stable `insertionSort`), and return the first 4. -/
def GeoResolverWithOptions.answer_query (env : Env)
    (dist : ℚ → ℚ → ℚ → ℚ → ℚ) (rands : Nat → Nat) (query : LookupQuery) :
    Option (List SliverTool) × LookupQuery :=
  let MAX_RESULTS := 4
  let candidates := ResolverBase.get_candidates env query
  if candidates.length = 0 then (none, query)
  else
    match query.latitude, query.longitude with
    | some lat, some lon =>
        let sliver_tool_bins := binsOf candidates
        let scanned :=
          sliver_tool_bins.enum.foldl (geoOptStep dist lat lon rands) ([], [])
        let sliver_tools_sorted :=
          List.insertionSort (fun a b => a.distance ≤ b.distance) scanned.2
        let final_results := sliver_tools_sorted.map (fun std => std.sliver_tool)
        (some (final_results.take MAX_RESULTS), query)
    | _, _ => ((randomChoice (rands 0) candidates).map (fun c => [c]), query)

/-- `MetroResolver._get_candidates`: the sites of the requested metro
(bounded fetch); no matching site answers the empty list without any
sliver-tool lookup; otherwise the site-restricted lookup. -/
def MetroResolver._get_candidates (env : Env) (query : LookupQuery)
    (address_family : AddressFamily) : List SliverTool :=
  let sites :=
    (env.sites.filter (fun s => query.metro == some s.metro)).take env.maxFetched
  if sites.length = 0 then []
  else
    ResolverBase._get_candidates_from_sites env query address_family
      (sites.map (fun s => s.site_id))

/-- `MetroResolver` inherits `get_candidates` from `ResolverBase`; dynamic
dispatch sends its `self._get_candidates` calls — the initial fetch and the
fallback retry alike — to the metro-filtered version. -/
def MetroResolver.get_candidates (env : Env) (query : LookupQuery) :
    List SliverTool :=
  getCandidatesWith (MetroResolver._get_candidates env query) query

/-- `MetroResolver.answer_query` is the inherited `ResolverBase.answer_query`
over the metro candidate acquisition. -/
def MetroResolver.answer_query (env : Env) (rand : Nat)
    (query : LookupQuery) : Option (List SliverTool) × LookupQuery :=
  baseAnswerQueryWith (MetroResolver.get_candidates env query) rand query

/-- `CountryResolver.answer_query`: `None` user country answers `none`
immediately; otherwise filter the acquired candidates by exact country
equality and pick randomly among the matches, `none` when there are none. -/
def CountryResolver.answer_query (env : Env) (rand : Nat)
    (query : LookupQuery) : Option (List SliverTool) × LookupQuery :=
  match query.user_defined_country with
  | none => (none, query)
  | some country =>
      let candidates := ResolverBase.get_candidates env query
      if candidates.length = 0 then (none, query)
      else
        let country_candidates :=
          candidates.filter (fun c => c.country == country)
        if country_candidates.length = 0 then (none, query)
        else ((randomChoice rand country_candidates).map (fun c => [c]), query)

/-- Modelled from the spec: the policy string constants of util/message.py
(not under src); six distinct policy names per spec section 4.9. -/
def POLICY_GEO : String := "geo"

def POLICY_METRO : String := "metro"

def POLICY_RANDOM : String := "random"

def POLICY_COUNTRY : String := "country"

def POLICY_GEO_OPTIONS : String := "geo_options"

def POLICY_ALL : String := "all"

/-- The closed set of resolver classes. -/
inductive Resolver where
  | geo
  | metro
  | random
  | country
  | geoOptions
  | all
deriving DecidableEq, Repr

/-- `new_resolver`: the policy-to-resolver factory. -/
def new_resolver (policy : String) : Resolver :=
  if policy == POLICY_GEO then .geo
  else if policy == POLICY_METRO then .metro
  else if policy == POLICY_RANDOM then .random
  else if policy == POLICY_COUNTRY then .country
  else if policy == POLICY_GEO_OPTIONS then .geoOptions
  else if policy == POLICY_ALL then .all
  else .random

/-- `AnswerQuery` dispatched over the resolver class; the geo resolvers
receive the distance function and the randomness they consume. -/
def Resolver.answer_query (r : Resolver) (env : Env)
    (dist : ℚ → ℚ → ℚ → ℚ → ℚ) (rands : Nat → Nat) (rand : Nat)
    (query : LookupQuery) : Option (List SliverTool) × LookupQuery :=
  match r with
  | .geo => GeoResolver.answer_query env dist rand query
  | .metro => MetroResolver.answer_query env rand query
  | .random => RandomResolver.answer_query env rand query
  | .country => CountryResolver.answer_query env rand query
  | .geoOptions => GeoResolverWithOptions.answer_query env dist rands query
  | .all => AllResolver.answer_query env query

/-- The per-candidate distance to the client: `distance.distance` applied to
the client coordinates and the candidate's coordinates. -/
def geoDist (dist : ℚ → ℚ → ℚ → ℚ → ℚ) (lat lon : ℚ) (st : SliverTool) : ℚ :=
  dist lat lon st.latitude st.longitude

/-- Correctness of the per-site distance memo relative to the candidate set
`C`: every memoized value is the distance of each candidate of `C` at that
site (meaningful when candidates of one site share coordinates). -/
def GeoMemoOK (dist : ℚ → ℚ → ℚ → ℚ → ℚ) (lat lon : ℚ)
    (C : List SliverTool) (memo : List (String × ℚ)) : Prop :=
  ∀ s d, memo.lookup s = some d →
    ∀ c ∈ C, c.site_id = s → geoDist dist lat lon c = d

/-- Specification of the geo scan state after processing the candidate
prefix `p`: the tracked minimum is the least distance over `p`, it is
attained, and the tie list is exactly the minimum-attaining candidates of
`p` in input order. -/
def GeoScanInv (dist : ℚ → ℚ → ℚ → ℚ → ℚ) (lat lon : ℚ)
    (p : List SliverTool) (acc : GeoAcc) : Prop :=
  match acc.min_distance with
  | none => p = [] ∧ acc.closest_sliver_tools = []
  | some m =>
      p ≠ [] ∧
      (∀ c ∈ p, m ≤ geoDist dist lat lon c) ∧
      (∃ c ∈ p, geoDist dist lat lon c = m) ∧
      acc.closest_sliver_tools =
        p.filter (fun c => geoDist dist lat lon c == m)

/-- Well-formedness of the site bins: keys are distinct, every bin is
non-empty, and every binned candidate carries its bin's `site_id`. -/
def BinsWF (bins : List (String × List SliverTool)) : Prop :=
  (bins.map Prod.fst).Nodup ∧
  ∀ pr ∈ bins, pr.2 ≠ [] ∧ ∀ st ∈ pr.2, st.site_id = pr.1

/-- The sort key of `GeoResolverWithOptions` (Python
`sorted(key=attrgetter(distance))`) is total. -/
instance : IsTotal SliverToolDistance (fun a b => a.distance ≤ b.distance) :=
  ⟨fun a b => le_total a.distance b.distance⟩

/-- The sort key of `GeoResolverWithOptions` is transitive. -/
instance : IsTrans SliverToolDistance (fun a b => a.distance ≤ b.distance) :=
  ⟨fun _ _ _ hab hbc => le_trans hab hbc⟩

/-! ## Concrete fixtures for witnesses and counterexamples -/

/-- A sliver tool that is online only over IPv6. -/
def toolV6 : SliverTool := ⟨"ndt", "abc01", "US", 0, 0, .offline, .online⟩

/-- Cache-hit environment holding only `toolV6`. -/
def envV6 : Env := ⟨fun _ => some [toolV6], [], [], 500⟩

/-- An IPv4 query whose family was not user-defined. -/
def queryV4 : LookupQuery :=
  ⟨"ndt", "geo", some .ipv4, none, none, none, none, none, none⟩

/-- A site of the `lga` metro hosting `toolV6`. -/
def siteLga : Site := ⟨"abc01", "lga"⟩

/-- Environment for the metro fixtures: `toolV6` in cache, one `lga` site. -/
def envMetro : Env := ⟨fun _ => some [toolV6], [], [siteLga], 500⟩

/-- A metro query for IPv4 whose family was not user-defined. -/
def queryMetro : LookupQuery :=
  ⟨"ndt", "metro", some .ipv4, none, none, none, some "lga", none, none⟩

/-- A sliver tool whose `country` is the empty string. -/
def toolNoCountry : SliverTool := ⟨"ndt", "xyz01", "", 0, 0, .online, .offline⟩

/-- Cache-hit environment holding only `toolNoCountry`. -/
def envNoCountry : Env := ⟨fun _ => some [toolNoCountry], [], [], 500⟩

/-- A country query whose `user_defined_country` is the empty string. -/
def queryEmptyCountry : LookupQuery :=
  ⟨"ndt", "country", some .ipv4, some .ipv4, none, none, none, some "", none⟩

/-- US/US/FR candidate fixtures of the country witness. -/
def toolUS1 : SliverTool := ⟨"ndt", "us101", "US", 1, 1, .online, .offline⟩

def toolUS2 : SliverTool := ⟨"ndt", "us102", "US", 2, 2, .online, .offline⟩

def toolFR : SliverTool := ⟨"ndt", "fr201", "FR", 3, 3, .online, .offline⟩

def envUSFR : Env := ⟨fun _ => some [toolUS1, toolUS2, toolFR], [], [], 500⟩

/-- A country query requesting `FR`. -/
def queryFR : LookupQuery :=
  ⟨"ndt", "country", some .ipv4, some .ipv4, none, none, none, some "FR", none⟩

/-- A concrete stand-in for the external distance function: the candidate's
latitude. -/
def distTest : ℚ → ℚ → ℚ → ℚ → ℚ := fun _ _ la _ => la

/-- Geo fixtures: a far site (`s1`, distance 5 under `distTest`) listed
before a near site (`s2`, distance 2). -/
def toolFar : SliverTool := ⟨"ndt", "s1", "US", 5, 7, .online, .offline⟩

def toolNear : SliverTool := ⟨"ndt", "s2", "US", 2, 9, .online, .offline⟩

def envGeo : Env := ⟨fun _ => some [toolFar, toolNear], [], [], 500⟩

/-- A geo query carrying client coordinates. -/
def queryGeo : LookupQuery :=
  ⟨"ndt", "geo", some .ipv4, some .ipv4, some 0, some 0, none, none, none⟩

/-- An environment whose cache misses and whose store and site table are
empty: every fetch returns the empty list. -/
def envEmpty : Env := ⟨fun _ => none, [], [], 500⟩

/-! ## Shared helper lemmas -/

/-- The three branches of `get_candidates` when the address family is set:
non-empty first fetch is returned unchanged; an empty first fetch retries
the other family unless the family equals `user_defined_af`. -/
lemma getCandidatesWith_spec (fetch : AddressFamily → List SliverTool)
    (q : LookupQuery) (f : AddressFamily) (h : q.address_family = some f) :
    (fetch f ≠ [] → getCandidatesWith fetch q = fetch f) ∧
    (fetch f = [] → q.user_defined_af ≠ some f →
      getCandidatesWith fetch q = fetch f.other) ∧
    (fetch f = [] → q.user_defined_af = some f →
      getCandidatesWith fetch q = []) := by
  simp only [getCandidatesWith, h]
  refine ⟨?_, ?_, ?_⟩
  · intro hne
    rw [if_neg]
    intro hc
    exact hne (List.length_eq_zero.mp hc.1)
  · intro he hu
    have hcond : (fetch f).length = 0 ∧ some f ≠ q.user_defined_af :=
      ⟨by simp [he], fun hc => hu hc.symm⟩
    rw [if_pos hcond]
    cases f <;> rfl
  · intro he hu
    rw [if_neg]
    · exact he
    · intro hc
      exact hc.2 hu.symm

/-- When the address family is unset, `get_candidates` never fetches and
returns the empty list. -/
lemma getCandidatesWith_noFamily (fetch : AddressFamily → List SliverTool)
    (q : LookupQuery) (h : q.address_family = none) :
    getCandidatesWith fetch q = [] := by
  simp only [getCandidatesWith, h]
  split <;> rfl

/-- `random.choice` on a non-empty list yields an element of the list. -/
lemma randomChoice_mem {α : Type*} (rand : Nat) (l : List α) (h : l ≠ []) :
    ∃ c, randomChoice rand l = some c ∧ c ∈ l := by
  have hlt : rand % l.length < l.length := Nat.mod_lt _ (List.length_pos.mpr h)
  exact ⟨l.get ⟨_, hlt⟩, by simp [randomChoice, List.get?_eq_get hlt],
    List.get_mem ..⟩

/-- Every element of a list is selected by `random.choice` under some value
of the injected randomness. -/
lemma randomChoice_surj {α : Type*} (l : List α) (c : α) (h : c ∈ l) :
    ∃ rand, randomChoice rand l = some c := by
  obtain ⟨n, hc⟩ := List.mem_iff_get.mp h
  refine ⟨n.1, ?_⟩
  simp only [randomChoice, Nat.mod_eq_of_lt n.2, List.get?_eq_get n.2]
  exact congrArg some hc

/-- `ResolverBase.answer_query` answers not-found exactly on an empty
candidate list. -/
lemma baseAnswerQueryWith_none_iff (candidates : List SliverTool) (rand : Nat)
    (q : LookupQuery) :
    (baseAnswerQueryWith candidates rand q).1 = none ↔ candidates = [] := by
  unfold baseAnswerQueryWith
  split
  · simp_all [List.length_eq_zero]
  · rename_i hc
    have hne : candidates ≠ [] := by
      intro hnil
      exact hc (by simp [hnil])
    obtain ⟨c, hc', _⟩ := randomChoice_mem rand candidates hne
    simp [hc', hne]

/-! ## C2: address-family fallback of `ResolverBase.get_candidates` -/

/-- C2: with `address_family` set, a non-empty fetch for that family is
returned unchanged; an empty fetch retries exactly once with the swapped
family when the family was not user-forced (`user_defined_af` differs) and
returns that result; when it was forced, no retry happens and the empty
list is returned. -/
theorem getCandidates_family_fallback (env : Env) (q : LookupQuery)
    (f : AddressFamily) (h : q.address_family = some f) :
    (ResolverBase._get_candidates env q f ≠ [] →
      ResolverBase.get_candidates env q = ResolverBase._get_candidates env q f) ∧
    (ResolverBase._get_candidates env q f = [] → q.user_defined_af ≠ some f →
      ResolverBase.get_candidates env q =
        ResolverBase._get_candidates env q f.other) ∧
    (ResolverBase._get_candidates env q f = [] → q.user_defined_af = some f →
      ResolverBase.get_candidates env q = []) :=
  getCandidatesWith_spec (ResolverBase._get_candidates env q) q f h

/-- Witness for C2 at a concrete environment: the IPv4 fetch is empty, the
family is not user-forced, and `get_candidates` returns the IPv6 fetch. -/
theorem getCandidates_family_fallback_witness :
    queryV4.address_family = some .ipv4 ∧
    ((ResolverBase._get_candidates envV6 queryV4 .ipv4 ≠ [] →
      ResolverBase.get_candidates envV6 queryV4 =
        ResolverBase._get_candidates envV6 queryV4 .ipv4) ∧
    (ResolverBase._get_candidates envV6 queryV4 .ipv4 = [] →
      queryV4.user_defined_af ≠ some .ipv4 →
      ResolverBase.get_candidates envV6 queryV4 =
        ResolverBase._get_candidates envV6 queryV4 AddressFamily.ipv4.other) ∧
    (ResolverBase._get_candidates envV6 queryV4 .ipv4 = [] →
      queryV4.user_defined_af = some .ipv4 →
      ResolverBase.get_candidates envV6 queryV4 = [])) :=
  ⟨rfl, getCandidates_family_fallback envV6 queryV4 .ipv4 rfl⟩

/-! ## C1: the Metro policy and address-family fallback -/

/-- C1 counterexample: a metro query whose requested family (IPv4) yields no
candidates does not answer not-found — the inherited `get_candidates`
fallback retries IPv6 through the metro-filtered lookup and the resolver
returns the IPv6-only candidate. -/
theorem metroResolver_fallback_cex :
    MetroResolver._get_candidates envMetro queryMetro .ipv4 = [] ∧
    queryMetro.user_defined_af = none ∧
    (MetroResolver.answer_query envMetro 0 queryMetro).1 = some [toolV6] := by
  refine ⟨rfl, rfl, ?_⟩
  rfl

/-- C1 amended: `MetroResolver` inherits the base `get_candidates`, so the
address-family fallback is performed for Metro: when the requested family
yields no metro candidates and the family was not user-forced, the swapped
family is fetched through the metro-filtered lookup, and the answer is
not-found exactly when that fallback is also empty. -/
theorem metro_addressFamily_fallback (env : Env) (q : LookupQuery)
    (f : AddressFamily) (h : q.address_family = some f)
    (hempty : MetroResolver._get_candidates env q f = [])
    (hfree : q.user_defined_af ≠ some f) :
    MetroResolver.get_candidates env q =
      MetroResolver._get_candidates env q f.other ∧
    ∀ rand, ((MetroResolver.answer_query env rand q).1 = none ↔
      MetroResolver._get_candidates env q f.other = []) := by
  have hgc :=
    (getCandidatesWith_spec (MetroResolver._get_candidates env q) q f h).2.1
      hempty hfree
  refine ⟨hgc, fun rand => ?_⟩
  unfold MetroResolver.answer_query
  rw [show MetroResolver.get_candidates env q =
    MetroResolver._get_candidates env q f.other from hgc]
  exact baseAnswerQueryWith_none_iff ..

/-- Witness for the amended C1 at the concrete metro fixture: the IPv6
fallback list is non-empty, so the answer is not not-found. -/
theorem metro_addressFamily_fallback_witness :
    (queryMetro.address_family = some .ipv4 ∧
      MetroResolver._get_candidates envMetro queryMetro .ipv4 = [] ∧
      queryMetro.user_defined_af ≠ some .ipv4) ∧
    (MetroResolver.get_candidates envMetro queryMetro =
      MetroResolver._get_candidates envMetro queryMetro
        AddressFamily.ipv4.other ∧
    ∀ rand, ((MetroResolver.answer_query envMetro rand queryMetro).1 = none ↔
      MetroResolver._get_candidates envMetro queryMetro
        AddressFamily.ipv4.other = [])) :=
  ⟨⟨rfl, rfl, by decide⟩,
    metro_addressFamily_fallback envMetro queryMetro .ipv4 rfl rfl (by decide)⟩

/-! ## C10: queries with no address family -/

/-- C10: when `address_family` is unset, no family is ever fetched — both
the base and the metro `get_candidates` return the empty list for every
environment — and every resolver answers not-found. -/
theorem get_candidates_unset_family (env : Env) (q : LookupQuery)
    (h : q.address_family = none) :
    ResolverBase.get_candidates env q = [] ∧
    MetroResolver.get_candidates env q = [] ∧
    ∀ (r : Resolver) (dist : ℚ → ℚ → ℚ → ℚ → ℚ) (rands : Nat → Nat)
      (rand : Nat), (r.answer_query env dist rands rand q).1 = none := by
  have hbase : ResolverBase.get_candidates env q = [] :=
    getCandidatesWith_noFamily _ q h
  have hmetro : MetroResolver.get_candidates env q = [] :=
    getCandidatesWith_noFamily _ q h
  refine ⟨hbase, hmetro, fun r dist rands rand => ?_⟩
  cases r
  case geo => simp [Resolver.answer_query, GeoResolver.answer_query, hbase]
  case metro =>
    simp [Resolver.answer_query, MetroResolver.answer_query, hmetro,
      baseAnswerQueryWith]
  case random =>
    simp [Resolver.answer_query, RandomResolver.answer_query,
      ResolverBase.answer_query, hbase, baseAnswerQueryWith]
  case country =>
    cases hq : q.user_defined_country <;>
      simp [Resolver.answer_query, CountryResolver.answer_query, hq, hbase]
  case geoOptions =>
    simp [Resolver.answer_query, GeoResolverWithOptions.answer_query, hbase]
  case all => simp [Resolver.answer_query, AllResolver.answer_query, hbase]

/-- Witness for C10 at a populated environment: the family being unset
forces the empty candidate list even though the cache holds a tool. -/
theorem get_candidates_unset_family_witness :
    (⟨"ndt", "geo", none, some .ipv6, none, none, none, none, none⟩ :
      LookupQuery).address_family = none ∧
    (ResolverBase.get_candidates envV6
        ⟨"ndt", "geo", none, some .ipv6, none, none, none, none, none⟩ = [] ∧
      MetroResolver.get_candidates envV6
        ⟨"ndt", "geo", none, some .ipv6, none, none, none, none, none⟩ = [] ∧
      ∀ (r : Resolver) (dist : ℚ → ℚ → ℚ → ℚ → ℚ) (rands : Nat → Nat)
        (rand : Nat),
        (r.answer_query envV6 dist rands rand
          ⟨"ndt", "geo", none, some .ipv6, none, none, none, none, none⟩).1 =
          none) :=
  ⟨rfl, get_candidates_unset_family envV6 _ rfl⟩

/-! ## C8: the resolver factory -/

/-- C8: `new_resolver` is total, maps each known policy constant to its
resolver class, and maps every unrecognized policy to a resolver
behaviorally identical to `RandomResolver`. -/
theorem new_resolver_total_spec :
    new_resolver POLICY_GEO = .geo ∧
    new_resolver POLICY_METRO = .metro ∧
    new_resolver POLICY_RANDOM = .random ∧
    new_resolver POLICY_COUNTRY = .country ∧
    new_resolver POLICY_GEO_OPTIONS = .geoOptions ∧
    new_resolver POLICY_ALL = .all ∧
    ∀ policy : String,
      policy ∉ [POLICY_GEO, POLICY_METRO, POLICY_RANDOM, POLICY_COUNTRY,
        POLICY_GEO_OPTIONS, POLICY_ALL] →
      new_resolver policy = .random ∧
      ∀ (env : Env) (dist : ℚ → ℚ → ℚ → ℚ → ℚ) (rands : Nat → Nat)
        (rand : Nat) (q : LookupQuery),
        (new_resolver policy).answer_query env dist rands rand q =
          RandomResolver.answer_query env rand q := by
  refine ⟨by decide, by decide, by decide, by decide, by decide, by decide,
    fun policy hp => ?_⟩
  have h1 : (policy == POLICY_GEO) = false := by
    simp only [beq_eq_false_iff_ne, ne_eq]
    intro hh; exact hp (by simp [hh])
  have h2 : (policy == POLICY_METRO) = false := by
    simp only [beq_eq_false_iff_ne, ne_eq]
    intro hh; exact hp (by simp [hh])
  have h3 : (policy == POLICY_RANDOM) = false := by
    simp only [beq_eq_false_iff_ne, ne_eq]
    intro hh; exact hp (by simp [hh])
  have h4 : (policy == POLICY_COUNTRY) = false := by
    simp only [beq_eq_false_iff_ne, ne_eq]
    intro hh; exact hp (by simp [hh])
  have h5 : (policy == POLICY_GEO_OPTIONS) = false := by
    simp only [beq_eq_false_iff_ne, ne_eq]
    intro hh; exact hp (by simp [hh])
  have h6 : (policy == POLICY_ALL) = false := by
    simp only [beq_eq_false_iff_ne, ne_eq]
    intro hh; exact hp (by simp [hh])
  have hr : new_resolver policy = .random := by
    simp [new_resolver, h1, h2, h3, h4, h5, h6]
  exact ⟨hr, fun env dist rands rand q => by rw [hr]; rfl⟩

/-- Witness for C8: a concrete unrecognized policy maps to the random
resolver and answers like it. -/
theorem new_resolver_total_spec_witness :
    ("bogus" : String) ∉ [POLICY_GEO, POLICY_METRO, POLICY_RANDOM,
      POLICY_COUNTRY, POLICY_GEO_OPTIONS, POLICY_ALL] ∧
    (new_resolver "bogus" = .random ∧
      ∀ (env : Env) (dist : ℚ → ℚ → ℚ → ℚ → ℚ) (rands : Nat → Nat)
        (rand : Nat) (q : LookupQuery),
        (new_resolver "bogus").answer_query env dist rands rand q =
          RandomResolver.answer_query env rand q) :=
  ⟨by decide, (new_resolver_total_spec.2.2.2.2.2.2 "bogus" (by decide))⟩

/-! ## C5: the Country policy -/

/-- C5 counterexample: an empty-string `user_defined_country` is not `None`,
so the resolver proceeds to the candidate lookup and — far from answering
not-found — returns a candidate whose country is the empty string. -/
theorem countryResolver_empty_string_cex :
    queryEmptyCountry.user_defined_country = some "" ∧
    (CountryResolver.answer_query envNoCountry 0 queryEmptyCountry).1 =
      some [toolNoCountry] :=
  ⟨rfl, rfl⟩

/-- C5 amended: `CountryResolver.answer_query` answers not-found immediately
(for every environment, hence without any candidate lookup) exactly when
`user_defined_country` is absent; an empty string is an ordinary country
value. With a country set, the acquired candidates are filtered by exact
case-sensitive string equality, an empty filtered set answers not-found,
and otherwise the answer is a singleton drawn from the filtered set, every
member of which is reachable under some randomness. -/
theorem countryResolver_spec (env : Env) (q : LookupQuery) :
    (q.user_defined_country = none →
      ∀ rand, (CountryResolver.answer_query env rand q).1 = none) ∧
    ∀ c, q.user_defined_country = some c →
      (ResolverBase.get_candidates env q = [] →
        ∀ rand, (CountryResolver.answer_query env rand q).1 = none) ∧
      ((ResolverBase.get_candidates env q).filter
          (fun cand => cand.country == c) = [] →
        ∀ rand, (CountryResolver.answer_query env rand q).1 = none) ∧
      ((ResolverBase.get_candidates env q).filter
          (fun cand => cand.country == c) ≠ [] →
        ∀ rand, ∃ x, (CountryResolver.answer_query env rand q).1 = some [x] ∧
          x ∈ (ResolverBase.get_candidates env q).filter
            (fun cand => cand.country == c)) ∧
      ∀ x ∈ (ResolverBase.get_candidates env q).filter
          (fun cand => cand.country == c),
        ∃ rand, (CountryResolver.answer_query env rand q).1 = some [x] := by
  constructor
  · intro h rand
    simp [CountryResolver.answer_query, h]
  intro c hc
  refine ⟨?_, ?_, ?_, ?_⟩
  · intro he rand
    simp [CountryResolver.answer_query, hc, he]
  · intro hm rand
    by_cases hcand : ResolverBase.get_candidates env q = []
    · simp [CountryResolver.answer_query, hc, hcand]
    · simp [CountryResolver.answer_query, hc, hm,
        List.length_eq_zero.not.mpr hcand]
  · intro hm rand
    have hcand : ResolverBase.get_candidates env q ≠ [] := by
      intro hnil
      exact hm (by simp [hnil])
    obtain ⟨x, hx, hxm⟩ :=
      randomChoice_mem rand
        ((ResolverBase.get_candidates env q).filter
          (fun cand => cand.country == c)) hm
    refine ⟨x, ?_, hxm⟩
    simp [CountryResolver.answer_query, hc,
      List.length_eq_zero.not.mpr hcand, List.length_eq_zero.not.mpr hm, hx]
  · intro x hx
    have hm : (ResolverBase.get_candidates env q).filter
        (fun cand => cand.country == c) ≠ [] :=
      List.ne_nil_of_mem hx
    have hcand : ResolverBase.get_candidates env q ≠ [] := by
      intro hnil
      exact hm (by simp [hnil])
    obtain ⟨rand, hr⟩ :=
      randomChoice_surj ((ResolverBase.get_candidates env q).filter
        (fun cand => cand.country == c)) x hx
    refine ⟨rand, ?_⟩
    simp [CountryResolver.answer_query, hc,
      List.length_eq_zero.not.mpr hcand, List.length_eq_zero.not.mpr hm, hr]

/-- Witness for the amended C5: with candidate countries US, US, FR and a
requested `FR`, the answer is exactly the FR candidate. -/
theorem countryResolver_spec_witness :
    queryFR.user_defined_country = some "FR" ∧
    (ResolverBase.get_candidates envUSFR queryFR).filter
      (fun cand => cand.country == "FR") ≠ [] ∧
    ∀ rand, ∃ x,
      (CountryResolver.answer_query envUSFR rand queryFR).1 = some [x] ∧
      x ∈ (ResolverBase.get_candidates envUSFR queryFR).filter
        (fun cand => cand.country == "FR") :=
  ⟨rfl, by decide,
    ((countryResolver_spec envUSFR queryFR).2 "FR" rfl).2.2.1 (by decide)⟩

/-! ## C6: empty candidate acquisition means not-found everywhere -/

/-- When every per-family fetch is empty, `get_candidates` is empty. -/
lemma getCandidatesWith_allEmpty (fetch : AddressFamily → List SliverTool)
    (q : LookupQuery) (h : ∀ af, fetch af = []) :
    getCandidatesWith fetch q = [] := by
  cases haf : q.address_family with
  | none => exact getCandidatesWith_noFamily fetch q haf
  | some f =>
    by_cases hu : q.user_defined_af = some f
    · exact (getCandidatesWith_spec fetch q f haf).2.2 (h f) hu
    · rw [(getCandidatesWith_spec fetch q f haf).2.1 (h f) hu]
      exact h _

/-- Every resolver answers not-found once both candidate acquisitions are
empty. -/
lemma answerQuery_none_of_empty (env : Env) (q : LookupQuery)
    (hbase : ResolverBase.get_candidates env q = [])
    (hmetro : MetroResolver.get_candidates env q = []) :
    ∀ (r : Resolver) (dist : ℚ → ℚ → ℚ → ℚ → ℚ) (rands : Nat → Nat)
      (rand : Nat), (r.answer_query env dist rands rand q).1 = none := by
  intro r dist rands rand
  cases r
  case geo => simp [Resolver.answer_query, GeoResolver.answer_query, hbase]
  case metro =>
    simp [Resolver.answer_query, MetroResolver.answer_query, hmetro,
      baseAnswerQueryWith]
  case random =>
    simp [Resolver.answer_query, RandomResolver.answer_query,
      ResolverBase.answer_query, hbase, baseAnswerQueryWith]
  case country =>
    cases hq : q.user_defined_country <;>
      simp [Resolver.answer_query, CountryResolver.answer_query, hq, hbase]
  case geoOptions =>
    simp [Resolver.answer_query, GeoResolverWithOptions.answer_query, hbase]
  case all => simp [Resolver.answer_query, AllResolver.answer_query, hbase]

/-- C6: when candidate acquisition returns the empty list for every
attempted address family — for the base path and the metro-restricted path
alike — every resolver's `AnswerQuery` answers the not-found marker. -/
theorem resolvers_notFound_on_empty (env : Env) (q : LookupQuery)
    (hbase : ∀ af, ResolverBase._get_candidates env q af = [])
    (hmetro : ∀ af, MetroResolver._get_candidates env q af = []) :
    ∀ (r : Resolver) (dist : ℚ → ℚ → ℚ → ℚ → ℚ) (rands : Nat → Nat)
      (rand : Nat), (r.answer_query env dist rands rand q).1 = none :=
  answerQuery_none_of_empty env q
    (getCandidatesWith_allEmpty _ q hbase)
    (getCandidatesWith_allEmpty _ q hmetro)

/-- Witness for C6: with an empty store, a cache miss and no sites, every
resolver answers not-found. -/
theorem resolvers_notFound_on_empty_witness :
    (∀ af, ResolverBase._get_candidates envEmpty queryV4 af = []) ∧
    (∀ af, MetroResolver._get_candidates envEmpty queryV4 af = []) ∧
    ∀ (r : Resolver) (dist : ℚ → ℚ → ℚ → ℚ → ℚ) (rands : Nat → Nat)
      (rand : Nat),
      (r.answer_query envEmpty dist rands rand queryV4).1 = none :=
  ⟨fun af => by cases af <;> rfl, fun af => by cases af <;> rfl,
    resolvers_notFound_on_empty envEmpty queryV4
      (fun af => by cases af <;> rfl) (fun af => by cases af <;> rfl)⟩

/-! ## C9: no resolver ever returns an empty list -/

/-- Every branch of the geo loop body leaves a `some` minimum. -/
lemma geoStep_min_isSome (dist : ℚ → ℚ → ℚ → ℚ → ℚ) (lat lon : ℚ)
    (acc : GeoAcc) (st : SliverTool) :
    (geoStep dist lat lon acc st).min_distance.isSome := by
  simp only [geoStep]
  split
  · rfl
  · split
    · rfl
    · split
      · rfl
      · rename_i m hm _ _
        simp [hm]

/-- The geo loop body keeps the tie list non-empty once the minimum is
tracked. -/
lemma geoStep_closest_ne (dist : ℚ → ℚ → ℚ → ℚ → ℚ) (lat lon : ℚ)
    (acc : GeoAcc) (st : SliverTool)
    (h : acc.min_distance.isSome → acc.closest_sliver_tools ≠ []) :
    (geoStep dist lat lon acc st).closest_sliver_tools ≠ [] := by
  simp only [geoStep]
  split
  · simp
  · rename_i m hm
    split
    · simp
    · split
      · simp
      · exact h (by rw [hm]; rfl)

/-- Folding the geo loop from a tracked state keeps the minimum tracked and
the tie list non-empty. -/
lemma foldl_geoStep_pres (dist : ℚ → ℚ → ℚ → ℚ → ℚ) (lat lon : ℚ) :
    ∀ (l : List SliverTool) (acc : GeoAcc),
    acc.min_distance.isSome → acc.closest_sliver_tools ≠ [] →
    (l.foldl (geoStep dist lat lon) acc).min_distance.isSome ∧
      (l.foldl (geoStep dist lat lon) acc).closest_sliver_tools ≠ []
  | [], _, h1, h2 => ⟨h1, h2⟩
  | c :: l, acc, _, h2 =>
    foldl_geoStep_pres dist lat lon l (geoStep dist lat lon acc c)
      (geoStep_min_isSome ..) (geoStep_closest_ne _ _ _ _ _ (fun _ => h2))

/-- The geo scan of a non-empty candidate list yields a non-empty tie list
and a tracked minimum. -/
lemma geoScan_ne (dist : ℚ → ℚ → ℚ → ℚ → ℚ) (lat lon : ℚ)
    (candidates : List SliverTool) (h : candidates ≠ []) :
    (geoScan dist lat lon candidates).min_distance.isSome ∧
      (geoScan dist lat lon candidates).closest_sliver_tools ≠ [] := by
  cases candidates with
  | nil => exact absurd rfl h
  | cons c l =>
    unfold geoScan
    rw [List.foldl_cons]
    exact foldl_geoStep_pres dist lat lon l _ (geoStep_min_isSome ..)
      (geoStep_closest_ne _ _ _ _ _ (by simp))

/-- `addToBins` never returns an empty bin list. -/
lemma addToBins_ne (bins : List (String × List SliverTool)) (st : SliverTool) :
    addToBins bins st ≠ [] := by
  unfold addToBins
  split
  · rename_i hany
    cases bins with
    | nil => simp at hany
    | cons b l => simp
  · simp

/-- Folding `addToBins` from a non-empty bin list stays non-empty. -/
lemma foldl_addToBins_ne :
    ∀ (l : List SliverTool) (acc : List (String × List SliverTool)),
    acc ≠ [] → l.foldl addToBins acc ≠ []
  | [], _, h => h
  | c :: l, acc, _ => by
    rw [List.foldl_cons]
    exact foldl_addToBins_ne l (addToBins acc c) (addToBins_ne acc c)

/-- The bins of a non-empty candidate list are non-empty. -/
lemma binsOf_ne (candidates : List SliverTool) (h : candidates ≠ []) :
    binsOf candidates ≠ [] := by
  cases candidates with
  | nil => exact absurd rfl h
  | cons c l =>
    unfold binsOf
    rw [List.foldl_cons]
    exact foldl_addToBins_ne l (addToBins [] c) (addToBins_ne [] c)

/-- Each iteration of the per-site loop appends exactly one entry. -/
lemma foldl_geoOptStep_len (dist : ℚ → ℚ → ℚ → ℚ → ℚ) (lat lon : ℚ)
    (rands : Nat → Nat) :
    ∀ (items : List (Nat × String × List SliverTool))
      (acc : List (String × ℚ) × List SliverToolDistance),
    (items.foldl (geoOptStep dist lat lon rands) acc).2.length =
      acc.2.length + items.length
  | [], acc => rfl
  | it :: items, acc => by
    rw [List.foldl_cons, foldl_geoOptStep_len dist lat lon rands items]
    simp only [geoOptStep]
    split <;> simp [List.length_append] <;> omega

/-- Evaluation of `GeoResolver.answer_query` on the coordinates path. -/
lemma geoResolver_answer_eq (env : Env) (dist : ℚ → ℚ → ℚ → ℚ → ℚ)
    (rand : Nat) (q : LookupQuery) (lat lon : ℚ)
    (hla : q.latitude = some lat) (hlo : q.longitude = some lon)
    (hne : ResolverBase.get_candidates env q ≠ []) :
    GeoResolver.answer_query env dist rand q =
      ((randomChoice rand
          (geoScan dist lat lon
            (ResolverBase.get_candidates env q)).closest_sliver_tools).map
          (fun c => [c]),
        { q with distance := Option.map (fun m => ⌈m⌉)
                               (geoScan dist lat lon
                                 (ResolverBase.get_candidates
                                   env q)).min_distance }) := by
  simp only [GeoResolver.answer_query, hla, hlo]
  rw [if_neg (by simpa using hne)]

/-- Evaluation of `GeoResolverWithOptions.answer_query` on the coordinates
path. -/
lemma geoOptions_answer_eq (env : Env) (dist : ℚ → ℚ → ℚ → ℚ → ℚ)
    (rands : Nat → Nat) (q : LookupQuery) (lat lon : ℚ)
    (hla : q.latitude = some lat) (hlo : q.longitude = some lon)
    (hne : ResolverBase.get_candidates env q ≠ []) :
    GeoResolverWithOptions.answer_query env dist rands q =
      (some (((List.insertionSort (fun a b => a.distance ≤ b.distance)
          (((binsOf (ResolverBase.get_candidates env q)).enum.foldl
            (geoOptStep dist lat lon rands) ([], [])).2)).map
          (fun std => std.sliver_tool)).take 4), q) := by
  simp only [GeoResolverWithOptions.answer_query, hla, hlo]
  rw [if_neg (by simpa using hne)]

/-- Evaluation of `GeoResolver.answer_query` on the degraded no-coordinates
path. -/
lemma geoResolver_answer_nocoords (env : Env) (dist : ℚ → ℚ → ℚ → ℚ → ℚ)
    (rand : Nat) (q : LookupQuery)
    (hne : ResolverBase.get_candidates env q ≠ [])
    (h : q.latitude = none ∨ q.longitude = none) :
    GeoResolver.answer_query env dist rand q =
      ((randomChoice rand (ResolverBase.get_candidates env q)).map
        (fun c => [c]), q) := by
  simp only [GeoResolver.answer_query]
  rw [if_neg (by simpa using hne)]
  rcases h with h | h
  · cases hlo : q.longitude <;> simp [h, hlo]
  · cases hla : q.latitude <;> simp [h, hla]

/-- Evaluation of `GeoResolverWithOptions.answer_query` on the degraded
no-coordinates path. -/
lemma geoOptions_answer_nocoords (env : Env) (dist : ℚ → ℚ → ℚ → ℚ → ℚ)
    (rands : Nat → Nat) (q : LookupQuery)
    (hne : ResolverBase.get_candidates env q ≠ [])
    (h : q.latitude = none ∨ q.longitude = none) :
    GeoResolverWithOptions.answer_query env dist rands q =
      ((randomChoice (rands 0) (ResolverBase.get_candidates env q)).map
        (fun c => [c]), q) := by
  simp only [GeoResolverWithOptions.answer_query]
  rw [if_neg (by simpa using hne)]
  rcases h with h | h
  · cases hlo : q.longitude <;> simp [h, hlo]
  · cases hla : q.latitude <;> simp [h, hla]

/-- C9: every resolver's `AnswerQuery` answers either the not-found marker
or a non-empty list; the empty list is never a result. -/
theorem answerQuery_never_empty (r : Resolver) (env : Env)
    (dist : ℚ → ℚ → ℚ → ℚ → ℚ) (rands : Nat → Nat) (rand : Nat)
    (q : LookupQuery) :
    (r.answer_query env dist rands rand q).1 = none ∨
    ∃ l, (r.answer_query env dist rands rand q).1 = some l ∧ l ≠ [] := by
  have hbase : ∀ candidates rand',
      (baseAnswerQueryWith candidates rand' q).1 = none ∨
      ∃ l, (baseAnswerQueryWith candidates rand' q).1 = some l ∧ l ≠ [] := by
    intro candidates rand'
    unfold baseAnswerQueryWith
    split
    · exact Or.inl rfl
    · rename_i hc
      have hne : candidates ≠ [] := by
        intro hnil
        exact hc (by simp [hnil])
      obtain ⟨c, hc', _⟩ := randomChoice_mem rand' candidates hne
      exact Or.inr ⟨[c], by simp [hc'], by simp⟩
  cases r
  case metro => exact hbase _ _
  case random => exact hbase _ _
  case all =>
    simp only [Resolver.answer_query, AllResolver.answer_query]
    split
    · exact Or.inl rfl
    · rename_i hc
      exact Or.inr ⟨_, rfl, by intro hnil; exact hc (by simp [hnil])⟩
  case country =>
    simp only [Resolver.answer_query]
    cases hudc : q.user_defined_country with
    | none => exact Or.inl (by simp [CountryResolver.answer_query, hudc])
    | some c =>
      simp only [CountryResolver.answer_query, hudc]
      split
      · exact Or.inl rfl
      split
      · exact Or.inl rfl
      · rename_i hcand hm
        have hne : (ResolverBase.get_candidates env q).filter
            (fun cand => cand.country == c) ≠ [] := by
          intro hnil
          exact hm (by simp [hnil])
        obtain ⟨x, hx, _⟩ := randomChoice_mem rand _ hne
        exact Or.inr ⟨[x], by simp [hx], by simp⟩
  case geo =>
    by_cases hc : ResolverBase.get_candidates env q = []
    · exact Or.inl (by simp [Resolver.answer_query,
        GeoResolver.answer_query, hc])
    · cases hla : q.latitude with
      | none =>
        obtain ⟨c, hc', _⟩ := randomChoice_mem rand _ hc
        refine Or.inr ⟨[c], ?_, by simp⟩
        show (GeoResolver.answer_query env dist rand q).1 = some [c]
        rw [geoResolver_answer_nocoords env dist rand q hc (Or.inl hla)]
        simp [hc']
      | some lat =>
        cases hlo : q.longitude with
        | none =>
          obtain ⟨c, hc', _⟩ := randomChoice_mem rand _ hc
          refine Or.inr ⟨[c], ?_, by simp⟩
          show (GeoResolver.answer_query env dist rand q).1 = some [c]
          rw [geoResolver_answer_nocoords env dist rand q hc (Or.inr hlo)]
          simp [hc']
        | some lon =>
          obtain ⟨-, hclosest⟩ := geoScan_ne dist lat lon _ hc
          obtain ⟨c, hc', _⟩ := randomChoice_mem rand _ hclosest
          refine Or.inr ⟨[c], ?_, by simp⟩
          show (GeoResolver.answer_query env dist rand q).1 = some [c]
          rw [geoResolver_answer_eq env dist rand q lat lon hla hlo hc]
          simp [hc']
  case geoOptions =>
    by_cases hc : ResolverBase.get_candidates env q = []
    · exact Or.inl (by simp [Resolver.answer_query,
        GeoResolverWithOptions.answer_query, hc])
    · cases hla : q.latitude with
      | none =>
        obtain ⟨c, hc', _⟩ := randomChoice_mem (rands 0) _ hc
        refine Or.inr ⟨[c], ?_, by simp⟩
        show (GeoResolverWithOptions.answer_query env dist rands q).1 = some [c]
        rw [geoOptions_answer_nocoords env dist rands q hc (Or.inl hla)]
        simp [hc']
      | some lat =>
        cases hlo : q.longitude with
        | none =>
          obtain ⟨c, hc', _⟩ := randomChoice_mem (rands 0) _ hc
          refine Or.inr ⟨[c], ?_, by simp⟩
          show (GeoResolverWithOptions.answer_query env dist rands q).1 =
            some [c]
          rw [geoOptions_answer_nocoords env dist rands q hc (Or.inr hlo)]
          simp [hc']
        | some lon =>
          refine Or.inr ⟨_, congrArg Prod.fst
            (geoOptions_answer_eq env dist rands q lat lon hla hlo hc), ?_⟩
          have hlen : (List.insertionSort
              (fun a b => a.distance ≤ b.distance)
              (((binsOf (ResolverBase.get_candidates env q)).enum.foldl
                (geoOptStep dist lat lon rands) ([], [])).2)).length =
              (binsOf (ResolverBase.get_candidates env q)).length := by
            rw [(List.perm_insertionSort _ _).length_eq,
              foldl_geoOptStep_len, List.enum_length]
            simp
          have hbins := binsOf_ne _ hc
          intro hnil
          have hlen0 := congrArg List.length hnil
          rw [List.length_take, List.length_map, hlen] at hlen0
          simp only [List.length_nil, Nat.min_eq_zero_iff] at hlen0
          rcases hlen0 with h4 | h0
          · omega
          · exact hbins (List.length_eq_zero.mp h0)

/-! ## C3: GeoResolver returns a minimum-distance candidate -/

/-- `List.lookup` over a one-element extension of an association list. -/
lemma lookup_append_single {β : Type*} (l : List (String × β)) (k s : String)
    (v : β) :
    (l ++ [(k, v)]).lookup s =
      match l.lookup s with
      | some d => some d
      | none => if s == k then some v else none := by
  induction l with
  | nil =>
    cases h : s == k with
    | true => simp [List.lookup, h, beq_iff_eq.mp h]
    | false => simp [List.lookup, h, beq_eq_false_iff_ne.mp h]
  | cons pr t ih =>
    obtain ⟨k', v'⟩ := pr
    by_cases hsp : s == k'
    · simp [List.lookup, hsp]
    · simp only [List.cons_append, List.lookup,
        Bool.not_eq_true] at hsp ⊢
      rw [hsp]
      exact ih

/-- One geo step preserves memo correctness and advances the scan
specification by one candidate. -/
lemma geoStep_inv (dist : ℚ → ℚ → ℚ → ℚ → ℚ) (lat lon : ℚ)
    (C p : List SliverTool) (acc : GeoAcc) (st : SliverTool)
    (coh : ∀ a ∈ C, ∀ b ∈ C, a.site_id = b.site_id →
      geoDist dist lat lon a = geoDist dist lat lon b)
    (hst : st ∈ C) (hp : ∀ c ∈ p, c ∈ C)
    (hmemo : GeoMemoOK dist lat lon C acc.distances)
    (hinv : GeoScanInv dist lat lon p acc) :
    GeoMemoOK dist lat lon C (geoStep dist lat lon acc st).distances ∧
    GeoScanInv dist lat lon (p ++ [st]) (geoStep dist lat lon acc st) := by
  have hcur : (match acc.distances.lookup st.site_id with
      | some d => d
      | none => dist lat lon st.latitude st.longitude) =
      geoDist dist lat lon st := by
    cases hlk : acc.distances.lookup st.site_id with
    | none => rfl
    | some d => exact (hmemo _ _ hlk st hst rfl).symm
  have hmemo' : GeoMemoOK dist lat lon C
      (match acc.distances.lookup st.site_id with
       | some _ => acc.distances
       | none => acc.distances ++
           [(st.site_id, geoDist dist lat lon st)]) := by
    cases hlk : acc.distances.lookup st.site_id with
    | some d => exact hmemo
    | none =>
      intro s dd hsd c hc hcs
      rw [lookup_append_single] at hsd
      cases hlk2 : acc.distances.lookup s with
      | some d2 =>
        rw [hlk2] at hsd
        exact hmemo _ _ (hsd ▸ hlk2) c hc hcs
      | none =>
        rw [hlk2] at hsd
        by_cases hk : s == st.site_id
        · rw [if_pos hk] at hsd
          have hs : s = st.site_id := beq_iff_eq.mp hk
          have := coh c hc st hst (by rw [hcs, hs])
          rw [this, ← Option.some_inj.mp hsd]
        · rw [if_neg hk] at hsd
          exact absurd hsd (by simp)
  have hstep : geoStep dist lat lon acc st =
      { min_distance :=
          match acc.min_distance with
          | none => some (geoDist dist lat lon st)
          | some m =>
              if geoDist dist lat lon st < m then
                some (geoDist dist lat lon st)
              else some m
        closest_sliver_tools :=
          match acc.min_distance with
          | none => [st]
          | some m =>
              if geoDist dist lat lon st < m then [st]
              else if geoDist dist lat lon st = m then
                acc.closest_sliver_tools ++ [st]
              else acc.closest_sliver_tools
        distances :=
          match acc.distances.lookup st.site_id with
          | some _ => acc.distances
          | none => acc.distances ++
              [(st.site_id, geoDist dist lat lon st)] } := by
    simp only [geoStep, hcur]
    cases acc.min_distance with
    | none => rfl
    | some m =>
      by_cases h1 : geoDist dist lat lon st < m
      · simp [h1]
      · by_cases h2 : geoDist dist lat lon st = m
        · simp [h1, h2]
        · simp [h1, h2]
  rw [hstep]
  refine ⟨hmemo', ?_⟩
  cases hm : acc.min_distance with
  | none =>
    simp only [GeoScanInv, hm] at hinv
    obtain ⟨hpnil, hclos⟩ := hinv
    subst hpnil
    simp only [GeoScanInv, List.nil_append]
    refine ⟨by simp, ?_, ⟨st, by simp, rfl⟩, ?_⟩
    · intro c hc
      rw [List.mem_singleton.mp hc]
    · simp
  | some m =>
    simp only [GeoScanInv, hm] at hinv
    obtain ⟨hpne, hle, hex, hclos⟩ := hinv
    by_cases h1 : geoDist dist lat lon st < m
    · simp only [GeoScanInv, if_pos h1]
      refine ⟨by simp, ?_, ⟨st, by simp, rfl⟩, ?_⟩
      · intro c hc
        rcases List.mem_append.mp hc with hcp | hcs
        · exact le_of_lt (lt_of_lt_of_le h1 (hle c hcp))
        · rw [List.mem_singleton.mp hcs]
      · rw [List.filter_append]
        have hnil : p.filter
            (fun c => geoDist dist lat lon c == geoDist dist lat lon st) =
            [] := by
          rw [List.filter_eq_nil_iff]
          intro c hc
          simp only [beq_iff_eq]
          intro heq
          exact absurd (heq ▸ hle c hc) (not_le.mpr h1)
        rw [hnil]
        simp
    · by_cases h2 : geoDist dist lat lon st = m
      · simp only [GeoScanInv, if_neg h1, if_pos h2]
        refine ⟨by simp [hpne], ?_, ?_, ?_⟩
        · intro c hc
          rcases List.mem_append.mp hc with hcp | hcs
          · exact hle c hcp
          · rw [List.mem_singleton.mp hcs, h2]
        · obtain ⟨c, hc, hcm⟩ := hex
          exact ⟨c, List.mem_append_left _ hc, hcm⟩
        · rw [List.filter_append, hclos]
          simp [h2]
      · simp only [GeoScanInv, if_neg h1, if_neg h2]
        refine ⟨by simp [hpne], ?_, ?_, ?_⟩
        · intro c hc
          rcases List.mem_append.mp hc with hcp | hcs
          · exact hle c hcp
          · rw [List.mem_singleton.mp hcs]
            exact le_of_not_lt h1
        · obtain ⟨c, hc, hcm⟩ := hex
          exact ⟨c, List.mem_append_left _ hc, hcm⟩
        · rw [List.filter_append, hclos]
          simp [h2]

/-- Folding the geo loop maintains the scan specification. -/
lemma foldl_geoStep_inv (dist : ℚ → ℚ → ℚ → ℚ → ℚ) (lat lon : ℚ)
    (C : List SliverTool)
    (coh : ∀ a ∈ C, ∀ b ∈ C, a.site_id = b.site_id →
      geoDist dist lat lon a = geoDist dist lat lon b) :
    ∀ (l p : List SliverTool) (acc : GeoAcc),
    (∀ c ∈ l, c ∈ C) → (∀ c ∈ p, c ∈ C) →
    GeoMemoOK dist lat lon C acc.distances →
    GeoScanInv dist lat lon p acc →
    GeoMemoOK dist lat lon C
      (l.foldl (geoStep dist lat lon) acc).distances ∧
    GeoScanInv dist lat lon (p ++ l) (l.foldl (geoStep dist lat lon) acc)
  | [], p, acc, _, _, hm, hi => by simpa using ⟨hm, hi⟩
  | st :: l, p, acc, hl, hp, hm, hi => by
    obtain ⟨hm', hi'⟩ := geoStep_inv dist lat lon C p acc st coh
      (hl st (List.mem_cons_self ..)) hp hm hi
    have hrec := foldl_geoStep_inv dist lat lon C coh l (p ++ [st])
      (geoStep dist lat lon acc st)
      (fun c hc => hl c (List.mem_cons_of_mem _ hc))
      (fun c hc => by
        rcases List.mem_append.mp hc with h | h
        · exact hp c h
        · rw [List.mem_singleton.mp h]
          exact hl st (List.mem_cons_self ..))
      hm' hi'
    rw [List.foldl_cons]
    refine ⟨hrec.1, ?_⟩
    have h2 := hrec.2
    rwa [List.append_assoc, List.singleton_append] at h2

/-- The geo scan of a non-empty coherent candidate list tracks the least
distance, attained, and its tie list is exactly the minimum-attaining
candidates. -/
lemma geoScan_spec (dist : ℚ → ℚ → ℚ → ℚ → ℚ) (lat lon : ℚ)
    (C : List SliverTool)
    (coh : ∀ a ∈ C, ∀ b ∈ C, a.site_id = b.site_id →
      geoDist dist lat lon a = geoDist dist lat lon b)
    (hne : C ≠ []) :
    ∃ m, (geoScan dist lat lon C).min_distance = some m ∧
      (∀ c ∈ C, m ≤ geoDist dist lat lon c) ∧
      (∃ c ∈ C, geoDist dist lat lon c = m) ∧
      (geoScan dist lat lon C).closest_sliver_tools =
        C.filter (fun c => geoDist dist lat lon c == m) := by
  have h := foldl_geoStep_inv dist lat lon C coh C [] ⟨none, [], []⟩
    (fun c hc => hc) (by simp)
    (by intro s d hsd; simp [List.lookup] at hsd)
    (by simp [GeoScanInv])
  have h2 := h.2
  rw [List.nil_append] at h2
  cases hm : (geoScan dist lat lon C).min_distance with
  | none =>
    have h2' := h2
    simp only [GeoScanInv] at h2'
    rw [show (List.foldl (geoStep dist lat lon) ⟨none, [], []⟩ C) =
      geoScan dist lat lon C from rfl, hm] at h2'
    exact absurd h2'.1 hne
  | some m =>
    have h2' := h2
    simp only [GeoScanInv] at h2'
    rw [show (List.foldl (geoStep dist lat lon) ⟨none, [], []⟩ C) =
      geoScan dist lat lon C from rfl, hm] at h2'
    exact ⟨m, rfl, h2'.2.1, h2'.2.2.1, h2'.2.2.2⟩

/-- C3: with client coordinates and a non-empty candidate set whose
co-sited candidates share coordinates, `GeoResolver.answer_query` returns a
single candidate whose distance to the client is the minimum over all
candidates, drawn from the tie list that is exactly the minimum-attaining
candidates (strictly smaller distances reset the list, equal distances
append to it). -/
theorem geoResolver_min_distance (env : Env) (dist : ℚ → ℚ → ℚ → ℚ → ℚ)
    (rand : Nat) (q : LookupQuery) (lat lon : ℚ)
    (hla : q.latitude = some lat) (hlo : q.longitude = some lon)
    (hne : ResolverBase.get_candidates env q ≠ [])
    (coh : ∀ a ∈ ResolverBase.get_candidates env q,
      ∀ b ∈ ResolverBase.get_candidates env q, a.site_id = b.site_id →
        a.latitude = b.latitude ∧ a.longitude = b.longitude) :
    ∃ m c, (GeoResolver.answer_query env dist rand q).1 = some [c] ∧
      (∀ x ∈ ResolverBase.get_candidates env q,
        m ≤ geoDist dist lat lon x) ∧
      (∃ x ∈ ResolverBase.get_candidates env q,
        geoDist dist lat lon x = m) ∧
      (geoScan dist lat lon
          (ResolverBase.get_candidates env q)).closest_sliver_tools =
        (ResolverBase.get_candidates env q).filter
          (fun x => geoDist dist lat lon x == m) ∧
      c ∈ (ResolverBase.get_candidates env q).filter
        (fun x => geoDist dist lat lon x == m) ∧
      geoDist dist lat lon c = m := by
  have coh' : ∀ a ∈ ResolverBase.get_candidates env q,
      ∀ b ∈ ResolverBase.get_candidates env q, a.site_id = b.site_id →
        geoDist dist lat lon a = geoDist dist lat lon b := by
    intro a ha b hb hab
    obtain ⟨h1, h2⟩ := coh a ha b hb hab
    simp [geoDist, h1, h2]
  obtain ⟨m, hm, hle, hex, hclos⟩ :=
    geoScan_spec dist lat lon (ResolverBase.get_candidates env q) coh' hne
  have hfilne : (ResolverBase.get_candidates env q).filter
      (fun x => geoDist dist lat lon x == m) ≠ [] := by
    obtain ⟨c, hc, hcm⟩ := hex
    exact List.ne_nil_of_mem (List.mem_filter.mpr ⟨hc, by simp [hcm]⟩)
  have hclosne : (geoScan dist lat lon
      (ResolverBase.get_candidates env q)).closest_sliver_tools ≠ [] := by
    rw [hclos]
    exact hfilne
  obtain ⟨c, hc, hcmem⟩ := randomChoice_mem rand _ hclosne
  refine ⟨m, c, ?_, hle, hex, hclos, hclos ▸ hcmem, ?_⟩
  · rw [geoResolver_answer_eq env dist rand q lat lon hla hlo hne]
    simp [hc]
  · have := List.mem_filter.mp (hclos ▸ hcmem)
    exact beq_iff_eq.mp this.2

/-- Witness for C3 at the concrete geo fixture: the nearer of two sites is
returned and its distance is the minimum. -/
theorem geoResolver_min_distance_witness :
    (queryGeo.latitude = some 0 ∧ queryGeo.longitude = some 0 ∧
      ResolverBase.get_candidates envGeo queryGeo ≠ [] ∧
      (∀ a ∈ ResolverBase.get_candidates envGeo queryGeo,
        ∀ b ∈ ResolverBase.get_candidates envGeo queryGeo,
          a.site_id = b.site_id →
            a.latitude = b.latitude ∧ a.longitude = b.longitude)) ∧
    ∃ m c, (GeoResolver.answer_query envGeo distTest 0 queryGeo).1 =
        some [c] ∧
      (∀ x ∈ ResolverBase.get_candidates envGeo queryGeo,
        m ≤ geoDist distTest 0 0 x) ∧
      (∃ x ∈ ResolverBase.get_candidates envGeo queryGeo,
        geoDist distTest 0 0 x = m) ∧
      (geoScan distTest 0 0
          (ResolverBase.get_candidates envGeo queryGeo)).closest_sliver_tools =
        (ResolverBase.get_candidates envGeo queryGeo).filter
          (fun x => geoDist distTest 0 0 x == m) ∧
      c ∈ (ResolverBase.get_candidates envGeo queryGeo).filter
        (fun x => geoDist distTest 0 0 x == m) ∧
      geoDist distTest 0 0 c = m :=
  ⟨⟨rfl, rfl, by decide, by decide⟩,
    geoResolver_min_distance envGeo distTest 0 queryGeo 0 0 rfl rfl
      (by decide) (by decide)⟩

/-! ## C7: the distance write and the query frame -/

/-- The base answer never touches the query. -/
lemma baseAnswerQueryWith_snd (candidates : List SliverTool) (rand : Nat)
    (q : LookupQuery) : (baseAnswerQueryWith candidates rand q).2 = q := by
  unfold baseAnswerQueryWith
  split <;> rfl

/-- `GeoResolverWithOptions` never touches the query. -/
lemma geoOptions_snd (env : Env) (dist : ℚ → ℚ → ℚ → ℚ → ℚ)
    (rands : Nat → Nat) (q : LookupQuery) :
    (GeoResolverWithOptions.answer_query env dist rands q).2 = q := by
  simp only [GeoResolverWithOptions.answer_query]
  split
  · rfl
  · split <;> rfl

/-- `CountryResolver` never touches the query. -/
lemma countryResolver_snd (env : Env) (rand : Nat) (q : LookupQuery) :
    (CountryResolver.answer_query env rand q).2 = q := by
  simp only [CountryResolver.answer_query]
  split
  · rfl
  · split
    · rfl
    · split <;> rfl

/-- `AllResolver` never touches the query. -/
lemma allResolver_snd (env : Env) (q : LookupQuery) :
    (AllResolver.answer_query env q).2 = q := by
  simp only [AllResolver.answer_query]
  split <;> rfl

/-- `GeoResolver` can change at most the distance field of its query. -/
lemma geoResolver_snd (env : Env) (dist : ℚ → ℚ → ℚ → ℚ → ℚ) (rand : Nat)
    (q : LookupQuery) :
    ∃ od, (GeoResolver.answer_query env dist rand q).2 =
      { q with distance := od } := by
  simp only [GeoResolver.answer_query]
  split
  · exact ⟨_, rfl⟩
  · split <;> exact ⟨_, rfl⟩

/-- C7: on a geo run with client coordinates and candidates (co-sited ones
sharing coordinates), the resolver writes exactly the ceiling of the
minimum distance onto the query's distance field; and every resolver's
`AnswerQuery`, on every input, can change at most the distance field of its
query. -/
theorem geoResolver_writes_distance (env : Env) (dist : ℚ → ℚ → ℚ → ℚ → ℚ)
    (rand : Nat) (q : LookupQuery) (lat lon : ℚ)
    (hla : q.latitude = some lat) (hlo : q.longitude = some lon)
    (hne : ResolverBase.get_candidates env q ≠ [])
    (coh : ∀ a ∈ ResolverBase.get_candidates env q,
      ∀ b ∈ ResolverBase.get_candidates env q, a.site_id = b.site_id →
        a.latitude = b.latitude ∧ a.longitude = b.longitude) :
    (∃ m, (∀ x ∈ ResolverBase.get_candidates env q,
        m ≤ geoDist dist lat lon x) ∧
      (∃ x ∈ ResolverBase.get_candidates env q,
        geoDist dist lat lon x = m) ∧
      (GeoResolver.answer_query env dist rand q).2 =
        { q with distance := some ⌈m⌉ }) ∧
    ∀ (r : Resolver) (envA : Env) (distA : ℚ → ℚ → ℚ → ℚ → ℚ)
      (randsA : Nat → Nat) (randA : Nat) (qA : LookupQuery),
      ∃ od, (r.answer_query envA distA randsA randA qA).2 =
        { qA with distance := od } := by
  constructor
  · have coh' : ∀ a ∈ ResolverBase.get_candidates env q,
        ∀ b ∈ ResolverBase.get_candidates env q, a.site_id = b.site_id →
          geoDist dist lat lon a = geoDist dist lat lon b := by
      intro a ha b hb hab
      obtain ⟨h1, h2⟩ := coh a ha b hb hab
      simp [geoDist, h1, h2]
    obtain ⟨m, hm, hle, hex, -⟩ :=
      geoScan_spec dist lat lon (ResolverBase.get_candidates env q) coh' hne
    refine ⟨m, hle, hex, ?_⟩
    rw [geoResolver_answer_eq env dist rand q lat lon hla hlo hne]
    simp [hm]
  · intro r envA distA randsA randA qA
    cases r
    case random =>
      exact ⟨qA.distance, by
        rw [show (Resolver.random.answer_query envA distA randsA randA qA).2 =
          qA from baseAnswerQueryWith_snd ..]⟩
    case metro =>
      exact ⟨qA.distance, by
        rw [show (Resolver.metro.answer_query envA distA randsA randA qA).2 =
          qA from baseAnswerQueryWith_snd ..]⟩
    case all =>
      exact ⟨qA.distance, by
        rw [show (Resolver.all.answer_query envA distA randsA randA qA).2 =
          qA from allResolver_snd ..]⟩
    case country =>
      exact ⟨qA.distance, by
        rw [show (Resolver.country.answer_query envA distA randsA randA qA).2 =
          qA from countryResolver_snd ..]⟩
    case geoOptions =>
      exact ⟨qA.distance, by
        rw [show
          (Resolver.geoOptions.answer_query envA distA randsA randA qA).2 =
          qA from geoOptions_snd ..]⟩
    case geo => exact geoResolver_snd envA distA randA qA

/-- Witness for C7 at the concrete geo fixture: the minimum distance is 2
and the query comes back with distance ⌈2⌉ = 2 and no other change. -/
theorem geoResolver_writes_distance_witness :
    (queryGeo.latitude = some 0 ∧ queryGeo.longitude = some 0 ∧
      ResolverBase.get_candidates envGeo queryGeo ≠ [] ∧
      (∀ a ∈ ResolverBase.get_candidates envGeo queryGeo,
        ∀ b ∈ ResolverBase.get_candidates envGeo queryGeo,
          a.site_id = b.site_id →
            a.latitude = b.latitude ∧ a.longitude = b.longitude)) ∧
    ((∃ m, (∀ x ∈ ResolverBase.get_candidates envGeo queryGeo,
        m ≤ geoDist distTest 0 0 x) ∧
      (∃ x ∈ ResolverBase.get_candidates envGeo queryGeo,
        geoDist distTest 0 0 x = m) ∧
      (GeoResolver.answer_query envGeo distTest 0 queryGeo).2 =
        { queryGeo with distance := some ⌈m⌉ }) ∧
    ∀ (r : Resolver) (envA : Env) (distA : ℚ → ℚ → ℚ → ℚ → ℚ)
      (randsA : Nat → Nat) (randA : Nat) (qA : LookupQuery),
      ∃ od, (r.answer_query envA distA randsA randA qA).2 =
        { qA with distance := od }) :=
  ⟨⟨rfl, rfl, by decide, by decide⟩,
    geoResolver_writes_distance envGeo distTest 0 queryGeo 0 0 rfl rfl
      (by decide) (by decide)⟩

/-! ## C4: GeoResolverWithOptions top-N specification -/

/-- One `addToBins` step: well-formedness is preserved, the key set gains
the candidate's site, and every binned candidate is an old one or the new
one. -/
lemma addToBins_spec (bins : List (String × List SliverTool))
    (st : SliverTool) (h : BinsWF bins) :
    BinsWF (addToBins bins st) ∧
    (∀ k, k ∈ (addToBins bins st).map Prod.fst ↔
      k ∈ bins.map Prod.fst ∨ k = st.site_id) ∧
    (∀ pr ∈ addToBins bins st, ∀ x ∈ pr.2,
      (∃ pr0 ∈ bins, x ∈ pr0.2) ∨ x = st) := by
  obtain ⟨hnd, hwf⟩ := h
  unfold addToBins
  by_cases hany : bins.any (fun p => p.1 == st.site_id)
  · rw [if_pos hany]
    have hkeys : (bins.map (fun p =>
        if p.1 == st.site_id then (p.1, p.2 ++ [st]) else p)).map Prod.fst =
        bins.map Prod.fst := by
      rw [List.map_map]
      refine List.map_congr_left ?_
      intro p _
      by_cases hp : p.1 = st.site_id <;> simp [hp]
    have hsite : st.site_id ∈ bins.map Prod.fst := by
      obtain ⟨p, hp, hpe⟩ := List.any_eq_true.mp hany
      exact List.mem_map.mpr ⟨p, hp, beq_iff_eq.mp hpe⟩
    refine ⟨⟨by rw [hkeys]; exact hnd, ?_⟩, ?_, ?_⟩
    · intro pr hpr
      obtain ⟨p0, hp0, hp0e⟩ := List.mem_map.mp hpr
      by_cases hp : p0.1 == st.site_id
      · rw [if_pos hp] at hp0e
        obtain ⟨hp0ne, hp0mem⟩ := hwf p0 hp0
        refine ⟨by rw [← hp0e]; simp, ?_⟩
        intro x hx
        rw [← hp0e] at hx ⊢
        rcases List.mem_append.mp hx with hx1 | hx2
        · exact hp0mem x hx1
        · rw [List.mem_singleton.mp hx2]
          exact (beq_iff_eq.mp hp).symm
      · rw [if_neg hp] at hp0e
        rw [← hp0e]
        exact hwf p0 hp0
    · intro k
      rw [hkeys]
      constructor
      · exact Or.inl
      · rintro (hk | hk)
        · exact hk
        · rw [hk]; exact hsite
    · intro pr hpr x hx
      obtain ⟨p0, hp0, hp0e⟩ := List.mem_map.mp hpr
      by_cases hp : p0.1 == st.site_id
      · rw [if_pos hp] at hp0e
        rw [← hp0e] at hx
        rcases List.mem_append.mp hx with hx1 | hx2
        · exact Or.inl ⟨p0, hp0, hx1⟩
        · exact Or.inr (List.mem_singleton.mp hx2)
      · rw [if_neg hp] at hp0e
        rw [← hp0e] at hx
        exact Or.inl ⟨p0, hp0, hx⟩
  · rw [if_neg hany]
    have hnotin : st.site_id ∉ bins.map Prod.fst := by
      intro hk
      obtain ⟨p, hp, hpe⟩ := List.mem_map.mp hk
      exact hany (List.any_eq_true.mpr ⟨p, hp, by simp [hpe]⟩)
    refine ⟨⟨?_, ?_⟩, ?_, ?_⟩
    · rw [List.map_append]
      refine List.nodup_append.mpr ⟨hnd, List.nodup_singleton _, ?_⟩
      intro a ha hb
      have hak : a = st.site_id := by simpa using hb
      exact hnotin (hak ▸ ha)
    · intro pr hpr
      rcases List.mem_append.mp hpr with hp | hp
      · exact hwf pr hp
      · rw [List.mem_singleton.mp hp]
        exact ⟨by simp, fun x hx => by
          rw [List.mem_singleton.mp hx]⟩
    · intro k
      rw [List.map_append]
      simp only [List.mem_append, List.map_cons, List.map_nil,
        List.mem_singleton]
    · intro pr hpr x hx
      rcases List.mem_append.mp hpr with hp | hp
      · exact Or.inl ⟨pr, hp, hx⟩
      · rw [List.mem_singleton.mp hp] at hx
        exact Or.inr (List.mem_singleton.mp hx)

/-- Folding `addToBins` preserves well-formedness, accumulates the site
keys, and bins only listed candidates. -/
lemma foldl_addToBins_spec :
    ∀ (l : List SliverTool) (bins : List (String × List SliverTool)),
    BinsWF bins →
    BinsWF (l.foldl addToBins bins) ∧
    (∀ k, k ∈ (l.foldl addToBins bins).map Prod.fst ↔
      k ∈ bins.map Prod.fst ∨ k ∈ l.map SliverTool.site_id) ∧
    (∀ pr ∈ l.foldl addToBins bins, ∀ x ∈ pr.2,
      (∃ pr0 ∈ bins, x ∈ pr0.2) ∨ x ∈ l)
  | [], bins, h => ⟨h, by simp, fun pr hpr x hx => Or.inl ⟨pr, hpr, hx⟩⟩
  | st :: l, bins, h => by
    obtain ⟨h1, h2, h3⟩ := addToBins_spec bins st h
    obtain ⟨g1, g2, g3⟩ := foldl_addToBins_spec l (addToBins bins st) h1
    rw [List.foldl_cons]
    refine ⟨g1, ?_, ?_⟩
    · intro k
      rw [g2 k, h2 k]
      simp [or_assoc]
    · intro pr hpr x hx
      rcases g3 pr hpr x hx with ⟨pr0, hpr0, hx0⟩ | hxl
      · rcases h3 pr0 hpr0 x hx0 with hold | hnew
        · exact Or.inl hold
        · exact Or.inr (by simp [hnew])
      · exact Or.inr (List.mem_cons_of_mem _ hxl)

/-- The bins of a candidate list are well-formed, keyed exactly by the
occurring site ids, and bin only listed candidates. -/
lemma binsOf_spec (C : List SliverTool) :
    BinsWF (binsOf C) ∧
    (∀ k, k ∈ (binsOf C).map Prod.fst ↔ k ∈ C.map SliverTool.site_id) ∧
    (∀ pr ∈ binsOf C, ∀ x ∈ pr.2, x ∈ C) := by
  unfold binsOf
  obtain ⟨h1, h2, h3⟩ := foldl_addToBins_spec C []
    ⟨List.nodup_nil, by simp⟩
  refine ⟨h1, ?_, ?_⟩
  · intro k
    rw [h2 k]
    simp
  · intro pr hpr x hx
    rcases h3 pr hpr x hx with ⟨pr0, hpr0, -⟩ | hxl
    · exact absurd hpr0 (by simp)
    · exact hxl

/-- There are exactly as many bins as distinct site ids. -/
lemma binsOf_length (C : List SliverTool) :
    (binsOf C).length = (C.map SliverTool.site_id).dedup.length := by
  obtain ⟨⟨hnd, -⟩, hkeys, -⟩ := binsOf_spec C
  have hperm : List.Perm ((binsOf C).map Prod.fst)
      ((C.map SliverTool.site_id).dedup) := by
    rw [List.perm_ext_iff_of_nodup hnd (List.nodup_dedup _)]
    intro a
    rw [List.mem_dedup]
    exact hkeys a
  calc (binsOf C).length = ((binsOf C).map Prod.fst).length :=
        (List.length_map ..).symm
    _ = _ := hperm.length_eq

/-- The per-site loop, fed distinct keys not yet memoized, emits exactly
one representative-distance pair per bin, in order, each carrying the
representative's own distance. -/
lemma geoOpt_scan_eq (dist : ℚ → ℚ → ℚ → ℚ → ℚ) (lat lon : ℚ)
    (rands : Nat → Nat) :
    ∀ (items : List (Nat × String × List SliverTool))
      (memo : List (String × ℚ)) (out : List SliverToolDistance),
    ((items.map (fun it => it.2.1)).Nodup) →
    (∀ it ∈ items, it.2.2 ≠ [] ∧ ∀ x ∈ it.2.2, x.site_id = it.2.1) →
    (∀ it ∈ items, memo.lookup it.2.1 = none) →
    (items.foldl (geoOptStep dist lat lon rands) (memo, out)).2 =
      out ++ items.map (fun it =>
        ⟨(randomChoice (rands it.1) it.2.2).getD default,
          geoDist dist lat lon
            ((randomChoice (rands it.1) it.2.2).getD default)⟩)
  | [], memo, out, _, _, _ => by simp
  | it :: items, memo, out, hnd, hwf, hmemo => by
    obtain ⟨hne, hsites⟩ := hwf it (List.mem_cons_self ..)
    obtain ⟨rep0, hrep0, hrep0mem⟩ := randomChoice_mem (rands it.1) it.2.2 hne
    have hrep : (randomChoice (rands it.1) it.2.2).getD default = rep0 := by
      rw [hrep0]
      rfl
    have hrepsite : rep0.site_id = it.2.1 := hsites rep0 hrep0mem
    have hnd' := hnd
    rw [List.map_cons] at hnd'
    have hheadout := (List.nodup_cons.mp hnd').1
    have hlk : memo.lookup rep0.site_id = none := by
      rw [hrepsite]
      exact hmemo it (List.mem_cons_self ..)
    rw [List.foldl_cons]
    have hstep : geoOptStep dist lat lon rands (memo, out) it =
        (memo ++ [(rep0.site_id, geoDist dist lat lon rep0)],
          out ++ [⟨rep0, geoDist dist lat lon rep0⟩]) := by
      simp only [geoOptStep, hrep, hlk, geoDist]
    rw [hstep]
    have hrec := geoOpt_scan_eq dist lat lon rands items
      (memo ++ [(rep0.site_id, geoDist dist lat lon rep0)])
      (out ++ [(⟨rep0, geoDist dist lat lon rep0⟩ : SliverToolDistance)])
      (List.nodup_cons.mp hnd').2
      (fun it2 hit2 => hwf it2 (List.mem_cons_of_mem _ hit2))
      (fun it2 hit2 => by
        have hne2 : it2.2.1 ≠ rep0.site_id := by
          rw [hrepsite]
          intro hh
          exact hheadout (hh ▸ List.mem_map.mpr ⟨it2, hit2, rfl⟩)
        simp [lookup_append_single,
          hmemo it2 (List.mem_cons_of_mem _ hit2), hne2])
    rw [hrec]
    simp [hrep, List.append_assoc]

/-- C4: with client coordinates and a non-empty candidate set,
`GeoResolverWithOptions.answer_query` returns a list of length
`min 4 (number of distinct site ids)`, sorted ascending by distance to the
client, with pairwise-distinct site ids, each entry a candidate drawn from
its own site's bin. -/
theorem geoOptions_topN_spec (env : Env) (dist : ℚ → ℚ → ℚ → ℚ → ℚ)
    (rands : Nat → Nat) (q : LookupQuery) (lat lon : ℚ)
    (hla : q.latitude = some lat) (hlo : q.longitude = some lon)
    (hne : ResolverBase.get_candidates env q ≠ []) :
    ∃ res, (GeoResolverWithOptions.answer_query env dist rands q).1 =
        some res ∧
      res.length = min 4 (((ResolverBase.get_candidates env q).map
        SliverTool.site_id).dedup.length) ∧
      List.Sorted (fun a b =>
        geoDist dist lat lon a ≤ geoDist dist lat lon b) res ∧
      (res.map SliverTool.site_id).Nodup ∧
      ∀ c ∈ res, c ∈ ResolverBase.get_candidates env q ∧
        ∃ bin, (c.site_id, bin) ∈
            binsOf (ResolverBase.get_candidates env q) ∧ c ∈ bin := by
  obtain ⟨⟨hnd, hwf⟩, hkeys, hmem⟩ :=
    binsOf_spec (ResolverBase.get_candidates env q)
  have hitems2 : ∀ it ∈ (binsOf (ResolverBase.get_candidates env q)).enum,
      it.2 ∈ binsOf (ResolverBase.get_candidates env q) := by
    intro it hit
    exact List.get?_mem (List.mem_enum_iff_get?.mp hit)
  have hitemskeys :
      ((binsOf (ResolverBase.get_candidates env q)).enum.map
        (fun it => it.2.1)) =
      (binsOf (ResolverBase.get_candidates env q)).map Prod.fst := by
    rw [show (fun (it : Nat × String × List SliverTool) => it.2.1) =
      Prod.fst ∘ Prod.snd from rfl, ← List.map_map, List.enum_map_snd]
  have hnditems :
      (((binsOf (ResolverBase.get_candidates env q)).enum.map
        (fun it => it.2.1))).Nodup := hitemskeys ▸ hnd
  have hwfitems : ∀ it ∈ (binsOf (ResolverBase.get_candidates env q)).enum,
      it.2.2 ≠ [] ∧ ∀ x ∈ it.2.2, x.site_id = it.2.1 :=
    fun it hit => hwf it.2 (hitems2 it hit)
  have hscan := geoOpt_scan_eq dist lat lon rands
    (binsOf (ResolverBase.get_candidates env q)).enum [] [] hnditems
    hwfitems (by intro it hit; simp [List.lookup])
  rw [List.nil_append] at hscan
  have hperm := List.perm_insertionSort
    (fun (a b : SliverToolDistance) => a.distance ≤ b.distance)
    (((binsOf (ResolverBase.get_candidates env q)).enum.foldl
      (geoOptStep dist lat lon rands) ([], [])).2)
  have hsortedS := List.sorted_insertionSort
    (fun (a b : SliverToolDistance) => a.distance ≤ b.distance)
    (((binsOf (ResolverBase.get_candidates env q)).enum.foldl
      (geoOptStep dist lat lon rands) ([], [])).2)
  have hdisteq : ∀ std ∈ List.insertionSort
      (fun a b => a.distance ≤ b.distance)
      (((binsOf (ResolverBase.get_candidates env q)).enum.foldl
        (geoOptStep dist lat lon rands) ([], [])).2),
      std.distance = geoDist dist lat lon std.sliver_tool := by
    intro std hstd
    have hstd2 := (hperm.mem_iff).mp hstd
    rw [hscan] at hstd2
    obtain ⟨it, hit, hite⟩ := List.mem_map.mp hstd2
    rw [← hite]
  have hmapsites : (((binsOf (ResolverBase.get_candidates env q)).enum.foldl
      (geoOptStep dist lat lon rands) ([], [])).2).map
      (fun std => std.sliver_tool.site_id) =
      ((binsOf (ResolverBase.get_candidates env q)).enum.map
        (fun it => it.2.1)) := by
    rw [hscan, List.map_map]
    refine List.map_congr_left ?_
    intro it hit
    obtain ⟨hne2, hsites⟩ := hwfitems it hit
    obtain ⟨rep0, hrep0, hrep0mem⟩ :=
      randomChoice_mem (rands it.1) it.2.2 hne2
    have hrep : (randomChoice (rands it.1) it.2.2).getD default = rep0 := by
      rw [hrep0]
      rfl
    show ((randomChoice (rands it.1) it.2.2).getD default).site_id = it.2.1
    rw [hrep]
    exact hsites rep0 hrep0mem
  refine ⟨_, congrArg Prod.fst
    (geoOptions_answer_eq env dist rands q lat lon hla hlo hne),
    ?_, ?_, ?_, ?_⟩
  · rw [List.length_take, List.length_map, hperm.length_eq, hscan,
      List.length_map, List.enum_length, binsOf_length]
  · have h1 : List.Pairwise (fun a b =>
        geoDist dist lat lon a.sliver_tool ≤
          geoDist dist lat lon b.sliver_tool)
        (List.insertionSort (fun a b => a.distance ≤ b.distance)
          (((binsOf (ResolverBase.get_candidates env q)).enum.foldl
            (geoOptStep dist lat lon rands) ([], [])).2)) :=
      List.Pairwise.imp_of_mem
        (fun ha hb hr => by
          rw [← hdisteq _ ha, ← hdisteq _ hb]
          exact hr) hsortedS
    have h2 : List.Pairwise (fun a b =>
        geoDist dist lat lon a ≤ geoDist dist lat lon b)
        ((List.insertionSort (fun a b => a.distance ≤ b.distance)
          (((binsOf (ResolverBase.get_candidates env q)).enum.foldl
            (geoOptStep dist lat lon rands) ([], [])).2)).map
          (fun std => std.sliver_tool)) :=
      (List.pairwise_map).mpr h1
    exact List.Pairwise.sublist (List.take_sublist ..) h2
  · rw [List.map_take, List.map_map]
    refine ((List.take_sublist ..).nodup) ?_
    have hpm := (hperm.map (fun std => std.sliver_tool.site_id)).nodup_iff
    refine hpm.mpr ?_
    rw [hmapsites, hitemskeys]
    exact hnd
  · intro c hc
    have hc2 := List.take_subset _ _ hc
    obtain ⟨std, hstdS, hstde⟩ := List.mem_map.mp hc2
    have hstd2 := (hperm.mem_iff).mp hstdS
    rw [hscan] at hstd2
    obtain ⟨it, hit, hite⟩ := List.mem_map.mp hstd2
    obtain ⟨hne2, hsites⟩ := hwfitems it hit
    obtain ⟨rep0, hrep0, hrep0mem⟩ :=
      randomChoice_mem (rands it.1) it.2.2 hne2
    have hrep : (randomChoice (rands it.1) it.2.2).getD default = rep0 := by
      rw [hrep0]
      rfl
    have hcrep : c = rep0 := by
      rw [← hstde, ← hite]
      simp [hrep]
    have hcmem : c ∈ it.2.2 := hcrep ▸ hrep0mem
    have hcsite : c.site_id = it.2.1 := hsites c hcmem
    refine ⟨hmem it.2 (hitems2 it hit) c hcmem, it.2.2, ?_, hcmem⟩
    have heq : (c.site_id, it.2.2) = it.2 := by
      rw [hcsite]
    rw [heq]
    exact hitems2 it hit

/-- Witness for C4 at the concrete two-site geo fixture. -/
theorem geoOptions_topN_spec_witness :
    (queryGeo.latitude = some 0 ∧ queryGeo.longitude = some 0 ∧
      ResolverBase.get_candidates envGeo queryGeo ≠ []) ∧
    ∃ res, (GeoResolverWithOptions.answer_query envGeo distTest
        (fun n => n) queryGeo).1 = some res ∧
      res.length = min 4 (((ResolverBase.get_candidates envGeo
        queryGeo).map SliverTool.site_id).dedup.length) ∧
      List.Sorted (fun a b =>
        geoDist distTest 0 0 a ≤ geoDist distTest 0 0 b) res ∧
      (res.map SliverTool.site_id).Nodup ∧
      ∀ c ∈ res, c ∈ ResolverBase.get_candidates envGeo queryGeo ∧
        ∃ bin, (c.site_id, bin) ∈
            binsOf (ResolverBase.get_candidates envGeo queryGeo) ∧
          c ∈ bin :=
  ⟨⟨rfl, rfl, by decide⟩,
    geoOptions_topN_spec envGeo distTest (fun n => n) queryGeo 0 0 rfl rfl
      (by decide)⟩
